import Mathlib

/-!
A shallow embedding of the core of `gtree.py` (a family-tree rendering
program): the escape-aware text measurement `actuallen`, the line-drawing
glyphs and the tree walk of `Tree._print`, the person data model
`GSPerson`, relationship derivation (parents, children, siblings,
spouses), the node info block (`Diagram.getinfo`, `Diagram.colorise_bg`)
and the profile view (`GSPerson.profile`).

Python dynamic-typing behaviour is reflected faithfully:

* `GSPerson.by_id` compares the integer `person.id` with its argument
  using Python `==`; when the argument is a string or a `GSPerson`
  object that comparison is always `False`.  The `PyVal` sum type and
  `pyIntEq` model this.
* A Python attribute error (calling `.get_name()` on `None`) is
  modelled as `Option.none` propagating out of the enclosing function.
* The character predicates (`str.isprintable`, `str.isalpha`) are
  modelled on the ASCII range, which covers every character class the
  program distinguishes (controls, the escape introducer, letters,
  visible ASCII); characters above U+00A0 are treated as printable.
-/

/-- Model of Python `str.isprintable` for a single character: false for
the C0 controls (this includes tab, newline, carriage return, form feed
and vertical tab), DEL, the C1 controls and NBSP; true for visible
ASCII and for higher code points. -/
def pyIsPrintable (c : Char) : Bool :=
  decide (0x20 ≤ c.toNat ∧ c.toNat ≤ 0x7e) || decide (0xa0 < c.toNat)

/-- Model of Python `str.isalpha` for a single character (ASCII range). -/
def pyIsAlpha (c : Char) : Bool :=
  c.isAlpha

/-- The state machine of `actuallen` (gtree.py lines 401-426): `b` is the
`skipping` flag.  While skipping, characters are consumed without
counting until the first alphabetic character (inclusive).  Otherwise
the escape introducer starts a skip; non-printable characters count 0;
then come the (dead, because such characters are already non-printable)
branches for carriage return / newline / form feed / vertical tab (0)
and horizontal tab (8); every other character counts 1. -/
def actuallenAux : Bool → List Char → Nat
  | _, [] => 0
  | true, c :: cs =>
    if pyIsAlpha c then actuallenAux false cs else actuallenAux true cs
  | false, c :: cs =>
    if c = '\x1b' then actuallenAux true cs
    else if !pyIsPrintable c then actuallenAux false cs
    else if c = '\r' ∨ c = '\n' ∨ c = '\x0c' ∨ c = '\x0b' then
      actuallenAux false cs
    else if c = '\t' then 8 + actuallenAux false cs
    else 1 + actuallenAux false cs

/-- Embedding of `actuallen` (gtree.py lines 401-426): the visible length
of a styled string. -/
def actuallenStr (s : String) : Nat :=
  actuallenAux false s.data

/-- Final value of the `skipping` flag after scanning the characters:
used to state that every escape sequence is closed by an alphabetic
character before the string ends. -/
def escSkipState : Bool → List Char → Bool
  | b, [] => b
  | true, c :: cs =>
    if pyIsAlpha c then escSkipState false cs else escSkipState true cs
  | false, c :: cs =>
    if c = '\x1b' then escSkipState true cs else escSkipState false cs

/-- A string has well-formed escape sequences when every sequence started
by the escape introducer is terminated by an alphabetic character. -/
def wellFormedEscapes (s : String) : Prop :=
  escSkipState false s.data = false

instance (s : String) : Decidable (wellFormedEscapes s) := by
  unfold wellFormedEscapes; infer_instance

/-- Modelled from the spec: deletion of every escape sequence (from the
escape introducer up to and including the first alphabetic character)
from a character list, mirroring the skip states of `actuallenAux`. -/
def stripEscAux : Bool → List Char → List Char
  | _, [] => []
  | true, c :: cs =>
    if pyIsAlpha c then stripEscAux false cs else stripEscAux true cs
  | false, c :: cs =>
    if c = '\x1b' then stripEscAux true cs else c :: stripEscAux false cs

/-- Modelled from the spec: a string with all escape sequences deleted. -/
def stripEscapesStr (s : String) : String :=
  String.mk (stripEscAux false s.data)

/-- Proof helper: the visible width contributed by one ordinary (not
escape-introducing) character. -/
def visContrib (c : Char) : Nat :=
  if !pyIsPrintable c then 0
  else if c = '\r' ∨ c = '\n' ∨ c = '\x0c' ∨ c = '\x0b' then 0
  else if c = '\t' then 8
  else 1

-- Graphics escape-code constants (gtree.py class Graphics).

/-- ANSI reset. -/
def gRESET : String := "\x1b[0m"

/-- ANSI bold. -/
def gBOLD : String := "\x1b[1m"

/-- ANSI reset-bold. -/
def gRESETBOLD : String := "\x1b[22m"

/-- ANSI white foreground. -/
def gFgWHITE : String := "\x1b[37m"

/-- ANSI default foreground. -/
def gFgDEFAULT : String := "\x1b[39m"

/-- ANSI magenta foreground. -/
def gFgMAGENTA : String := "\x1b[35m"

/-- ANSI yellow foreground. -/
def gFgYELLOW : String := "\x1b[33m"

/-- ANSI blue background (the root highlight). -/
def gBgBLUE : String := "\x1b[44m"

/-- ANSI default background. -/
def gBgDEFAULT : String := "\x1b[49m"

/-- The four line-drawing items of `Graphics.LineDrawing`, after
`colorise` has wrapped each in the chosen color and a return to the
default foreground. -/
structure Glyphs where
  PIPE : String
  ELBOW : String
  TEE : String
  BLANK : String
deriving DecidableEq

/-- Embedding of `Graphics.LineDrawing.__init__` plus `colorise`
(gtree.py lines 175-204): chooses the Unicode or ASCII item set and
wraps each item as `color + item + "\x1b[39m"`. -/
def lineDrawing (color : String) (ascii : Bool) : Glyphs :=
  if ascii then
    ⟨color ++ "|  " ++ gFgDEFAULT,
     color ++ "`--" ++ gFgDEFAULT,
     color ++ "|--" ++ gFgDEFAULT,
     color ++ "   " ++ gFgDEFAULT⟩
  else
    ⟨color ++ "│  " ++ gFgDEFAULT,
     color ++ "└──" ++ gFgDEFAULT,
     color ++ "├──" ++ gFgDEFAULT,
     color ++ "   " ++ gFgDEFAULT⟩

/-- Embedding of `setup_options` (gtree.py lines 484-491): the global
glyph configuration uses a yellow foreground, parameterised here by the
ASCII toggle. -/
def theOPTIONS (ascii : Bool) : Glyphs :=
  lineDrawing gFgYELLOW ascii

/-- Character-level replacement of every newline by a newline followed
by the continuation header (the effect of Python
`data.replace("\n", "\n" + header)` for the single-character pattern). -/
def replNlChars (h : List Char) : List Char → List Char
  | [] => []
  | c :: cs =>
    if c = '\n' then '\n' :: (h ++ replNlChars h cs)
    else c :: replNlChars h cs

/-- Embedding of `Tree._newlines` (gtree.py lines 499-502). -/
def newlinesRepl (s : String) (header : String) : String :=
  String.mk (replNlChars header.data s.data)

/-- The recursive node structure consumed by `Tree._print`: the pairs
`[infoBlock, children]` produced by `Diagram._convert`. -/
inductive PTree where
  | node (info : String) (children : List PTree)

/-- Concatenation of a list of strings (proof-side formulation used to
state the tree-walk equation). -/
def concatAll (l : List String) : String :=
  l.foldr (fun a b => a ++ b) ""

mutual

/-- Embedding of `Tree._print` (gtree.py lines 504-532) as a pure
function of the node, its last-sibling flag and the indentation header.
The Python method also receives a `lastcall` flag that it never reads;
it is omitted.  The emitted text is the header, the elbow (if last) or
tee (otherwise) connector, the info block with every internal newline
continued under blank padding (if last) or a pipe (otherwise), a
newline, then the children rendered under the extended header, each
child last exactly when it sits at the final position. -/
def printNode (g : Glyphs) : PTree → Bool → String → String
  | PTree.node info children, last, header =>
    header
    ++ (if last then g.ELBOW else g.TEE)
    ++ newlinesRepl info (header ++ (if last then g.BLANK else g.PIPE))
    ++ "\n"
    ++ (if children.isEmpty then ""
        else printKids g children 0 children.length
          (header ++ (if last then g.BLANK else g.PIPE)))

/-- The `for i, c in enumerate(children)` loop of `Tree._print`: `i` is
the running index and `n` the total number of children. -/
def printKids (g : Glyphs) : List PTree → Nat → Nat → String → String
  | [], _, _, _ => ""
  | c :: cs, i, n, header =>
    printNode g c (i == n - 1) header ++ printKids g cs (i + 1) n header

end

/-- Embedding of `Tree.gen` (gtree.py lines 534-538): prints every
top-level entry with the default arguments `last = True`, empty header. -/
def treeGen (g : Glyphs) (lst : List PTree) : String :=
  lst.foldl (fun data p => data ++ printNode g p true "") ""

-- Person data model and helpers.

/-- Embedding of a `GSPerson` record (gtree.py lines 702-712) after
construction: `parents` already parsed into integers, `gender` already
resolved to the 0/1/2 encoding, and the attributes set dynamically for
extended fields collected in `extended` (attribute name paired with the
string value). -/
structure GSPerson where
  id : Int
  title : String
  first_name : String
  middle_name : String
  last_name : String
  birth_date : String
  death_date : String
  gender : Int
  parents : List Int
  extended : List (String × String)
deriving DecidableEq

/-- A dynamically-typed Python value as it reaches an `==` comparison
against an integer id: an integer, a string, or a `GSPerson` object. -/
inductive PyVal where
  | vint (n : Int)
  | vstr (s : String)
  | vperson (p : GSPerson)

/-- Python `==` between an integer and a dynamically-typed value: integer
against integer compares numerically; integer against a string or
against a `GSPerson` object is always `False`. -/
def pyIntEq (a : Int) : PyVal → Bool
  | PyVal.vint b => a == b
  | PyVal.vstr _ => false
  | PyVal.vperson _ => false

/-- Embedding of `GSPerson.by_id` (gtree.py lines 808-813): the first
stored person whose id compares equal (by Python `==`) to the argument,
or `None`. -/
def by_id (store : List GSPerson) (tid : PyVal) : Option GSPerson :=
  store.find? (fun person => pyIntEq person.id tid)

/-- Embedding of `GSPerson.get_name` (gtree.py lines 841-847). -/
def get_name (p : GSPerson) : String :=
  String.intercalate " "
    ([p.title, p.first_name, p.middle_name, p.last_name].filter
      (fun i => !i.isEmpty))

/-- Embedding of `get_gender` (gtree.py lines 361-364). -/
def get_gender (g : Int) : String :=
  if g = 1 then "Male" else if g = 2 then "Female" else "Unknown"

/-- Embedding of `fmt_id` (gtree.py lines 286-295). -/
def fmt_id (person : GSPerson) (style endStr : String) : String :=
  style ++ "(" ++ toString person.id ++ ")" ++ endStr

/-- Embedding of the local `get_id_fmt` of `Diagram.getinfo` (gtree.py
lines 599-600): a space then the bare parenthesised id. -/
def get_id_fmt (ps : GSPerson) : String :=
  " " ++ fmt_id ps "" ""

/-- Embedding of `add_header` (gtree.py lines 277-282). -/
def add_header (name : String) : String :=
  gBOLD ++ name ++ ":" ++ gRESET ++ "\n"

/-- Embedding of `add_person` (gtree.py lines 300-304): tab, name, space,
magenta id annotation, newline. -/
def add_person (person : GSPerson) : String :=
  "\t" ++ get_name person ++ " " ++ fmt_id person gFgMAGENTA gRESET ++ "\n"

/-- Python `"{:<w}".format(s)`: left-justify by padding with spaces (no
truncation). -/
def ljust (s : String) (w : Nat) : String :=
  s ++ String.mk (List.replicate (w - s.length) ' ')

/-- Python `"{:>w}".format(s)`: right-justify by padding with spaces. -/
def rjust (s : String) (w : Nat) : String :=
  String.mk (List.replicate (w - s.length) ' ') ++ s

/-- Embedding of `add_field` (gtree.py lines 308-319): empty text yields
nothing; otherwise the key is left-justified to 12 columns (bold when
`embolden`), then a space, then the text, right-justified to
`max 28 ideal - 12` columns when `align_text`. -/
def add_field (key text : String) (align_text embolden : Bool)
    (ideal : Nat) : String :=
  if text.isEmpty then ""
  else
    (if embolden then gBOLD else "")
    ++ ljust (key ++ ":") 12
    ++ (if embolden then gRESETBOLD else "")
    ++ " "
    ++ (if align_text then rjust text (max 28 ideal - 12) else text)
    ++ "\n"

/-- Embedding of `convert_to_underscores` (gtree.py lines 683-700):
camel-case to lower-case with a separator before every upper-case
letter except a leading one, with the irregular conversion of "ID". -/
def convert_to_underscores (name : String) (sep : String) : String :=
  if name = "ID" then "id"
  else
    (name.data.enum).foldl
      (fun acc ic =>
        if ic.2.isUpper then
          (if ic.1 = 0 then acc ++ String.mk [ic.2.toLower]
           else acc ++ sep ++ String.mk [ic.2.toLower])
        else acc ++ String.mk [ic.2])
      ""

/-- Embedding of a `GSField` descriptor (gtree.py lines 429-457). -/
structure GSField where
  name : String
  display_name : String
  show_in_tree : Bool
  array_persons : Bool
  type : String
deriving DecidableEq

/-- Embedding of `GSField.value_name`: the attribute name under which a
person stores the field value. -/
def GSField.value_name (f : GSField) : String :=
  convert_to_underscores f.name "_"

/-- Embedding of `GSField.has_field`: whether the person carries the
attribute. -/
def GSField.has_field (f : GSField) (p : GSPerson) : Bool :=
  (p.extended.lookup f.value_name).isSome

/-- Embedding of `GSField.extract`: the attribute value (defined exactly
when `has_field` holds; the default is never reached on the paths the
program takes). -/
def GSField.extract (f : GSField) (p : GSPerson) : String :=
  (p.extended.lookup f.value_name).getD ""

/-- Embedding of `all_fields_for_person` (gtree.py lines 476-479), with
the process-wide `EXTENDED_FIELDS` registry passed explicitly. -/
def all_fields_for_person (fields : List GSField) (p : GSPerson) :
    List GSField :=
  fields.filter (fun f => f.has_field p)

/-- Splitting a character list on a separator, Python style: splitting
the empty string yields one empty piece, and adjacent separators yield
empty pieces. -/
def splitOnCharList (sep : Char) : List Char → List (List Char)
  | [] => [[]]
  | c :: cs =>
    let r := splitOnCharList sep cs
    if c = sep then [] :: r
    else
      match r with
      | [] => [[c]]
      | h :: t => (c :: h) :: t

/-- Python `s.split(sep)` for a one-character separator. -/
def pySplit (sep : Char) (s : String) : List String :=
  (splitOnCharList sep s.data).map String.mk

/-- Python `s.rstrip("\n")`: remove every trailing newline character. -/
def rstripNl (s : String) : String :=
  String.mk ((s.data.reverse.dropWhile (fun c => c = '\n')).reverse)

-- Relationship derivation.

/-- Embedding of `GSPerson.get_parents` (gtree.py lines 765-769): the
stored persons whose id occurs in `self.parents`, in store order. -/
def get_parents (store : List GSPerson) (self : GSPerson) :
    List GSPerson :=
  store.filter (fun person => decide (person.id ∈ self.parents))

/-- Embedding of `GSPerson.get_children` (gtree.py lines 771-775): the
stored persons whose `parents` list contains `self.id`, in store
order. -/
def get_children (store : List GSPerson) (self : GSPerson) :
    List GSPerson :=
  store.filter (fun person => decide (self.id ∈ person.parents))

/-- Embedding of `GSPerson.get_siblings` (gtree.py lines 815-822): empty
when `self.parents` is empty; otherwise the stored persons with a
different id whose `parents` list is equal (as an ordered Python list)
to `self.parents`. -/
def get_siblings (store : List GSPerson) (self : GSPerson) :
    List GSPerson :=
  if self.parents.isEmpty then []
  else
    store.filter (fun person =>
      decide (¬ person.id = self.id) && decide (person.parents = self.parents))

/-- The inner loop of `GSPerson.get_spouses` (gtree.py lines 828-831):
`other_parent` starts at 0 and is overwritten by every parent id of the
child that differs from `self.id`; the last such id (or 0) wins. -/
def otherParent (selfId : Int) (parents : List Int) : Int :=
  parents.foldl (fun acc tid => if tid ≠ selfId then tid else acc) 0

/-- One iteration of the `for child in children` loop of
`GSPerson.get_spouses` (gtree.py lines 827-837): resolve the other
parent id, and append the resolved person unless it is `None` or
already collected. -/
def spouseStep (store : List GSPerson) (self : GSPerson)
    (spouses : List GSPerson) (child : GSPerson) : List GSPerson :=
  match by_id store (PyVal.vint (otherParent self.id child.parents)) with
  | none => spouses
  | some spouse =>
    if spouse ∈ spouses then spouses else spouses ++ [spouse]

/-- Embedding of `GSPerson.get_spouses` (gtree.py lines 824-839). -/
def get_spouses (store : List GSPerson) (self : GSPerson) :
    List GSPerson :=
  (get_children store self).foldl (spouseStep store self) []

-- The diagram (info block) layer.

/-- The nested dictionary produced by `GSPerson._gen_dict`: person ids
mapped to either `None` (no further relatives) or a sub-dictionary. -/
inductive PyDict where
  | mk (entries : List (Int × Option PyDict))

/-- The entry list of a `PyDict`. -/
def PyDict.entries : PyDict → List (Int × Option PyDict)
  | PyDict.mk e => e

/-- Python truthiness of a dictionary value that is either `None` or a
dictionary: `None` and the empty dictionary are falsy. -/
def pyTruthy : Option PyDict → Bool
  | none => false
  | some d => !d.entries.isEmpty

/-- Embedding of `self.tree.get(person, False)` in `Diagram.getinfo`
(gtree.py line 612): the tree keys are integer ids but the lookup key is
the `GSPerson` object, so the Python `==` between them decides the hit.
The result is the truthiness of the found value, with default `False`. -/
def treeGetPersonTruthy (tree : PyDict) (person : GSPerson) : Bool :=
  match tree.entries.find?
      (fun kv => pyIntEq kv.1 (PyVal.vperson person)) with
  | none => false
  | some kv => pyTruthy kv.2

/-- The spouse-line guard of `Diagram.getinfo` (gtree.py line 612):
`not self.ancestor or self.tree.get(person, False)`. -/
def spouseCond (tree : PyDict) (ancestor : Bool) (person : GSPerson) :
    Bool :=
  !ancestor || treeGetPersonTruthy tree person

/-- Embedding of `Diagram.colorise_bg` (gtree.py lines 548-596): split
into lines, right-pad every line with spaces to the longest visible
length, then re-join with the first line bold, a white foreground when
the background is not the default, the background color, and a return
to the default colors after each line. -/
def colorise_bg (output : String) (color : String) : String :=
  let lines := pySplit '\n' output
  let longest := lines.foldl (fun m l => max m (actuallenStr l)) 0
  let padded := lines.map
    (fun l => l ++ String.mk (List.replicate (longest - actuallenStr l) ' '))
  (padded.enum).foldl
    (fun acc il =>
      acc
      ++ (if il.1 = 0 then "" else "\n")
      ++ (if il.1 = 0 then gBOLD else "")
      ++ (if color = gBgDEFAULT then "" else gFgWHITE)
      ++ color
      ++ il.2
      ++ (if color = gBgDEFAULT then "" else gFgDEFAULT)
      ++ gBgDEFAULT
      ++ (if il.1 = 0 then gRESETBOLD else ""))
    ""

/-- Embedding of `Diagram.getinfo` (gtree.py lines 598-649) before the
final `colorise_bg` call: resolve the id (an unresolved id would crash
on the attribute access, modelled as `none`), build the name line with
id annotation, the Birth and Death fields aligned to the raw name
length, the Spouse lines when `spouseCond` holds, then the extended
fields flagged `show_in_tree`.  For an array-of-persons field the
Python loop rebinds its own variable, so after the loop the variable
holds `GSPerson.by_id(person)` called on the person OBJECT (not an id);
that lookup always returns `None` and the following attribute access
crashes, modelled as `none`. -/
def getinfoCore (fields : List GSField) (store : List GSPerson)
    (tree : PyDict) (ancestor : Bool) (pid : Int) : Option String :=
  match by_id store (PyVal.vint pid) with
  | none => none
  | some person =>
    let name := get_name person ++ get_id_fmt person
    let namelen := name.length
    let output := name ++ "\n"
      ++ add_field "Birth" person.birth_date true false namelen
      ++ add_field "Death" person.death_date true false namelen
    let output :=
      if spouseCond tree ancestor person then
        (get_spouses store person).foldl
          (fun out spouse =>
            out ++ add_field "Spouse" (get_name spouse ++ get_id_fmt spouse)
              true false namelen)
          output
      else output
    match (all_fields_for_person fields person).foldlM
        (fun out f =>
          if f.show_in_tree then
            if f.array_persons then
              match by_id store (PyVal.vperson person) with
              | none => none
              | some psx1 =>
                some (out ++ add_field f.display_name
                  (get_name psx1 ++ get_id_fmt psx1) true false namelen)
            else
              some (out ++ add_field f.display_name (f.extract person)
                true false namelen)
          else some out)
        output with
    | none => none
    | some out => some (rstripNl out)

/-- Embedding of `Diagram.getinfo` (gtree.py lines 598-649) including
the final `colorise_bg` call: blue background at rootness 0, default
background otherwise. -/
def getinfo (fields : List GSField) (store : List GSPerson)
    (tree : PyDict) (ancestor : Bool) (pid : Int) (rootness : Nat) :
    Option String :=
  Option.map
    (fun s => colorise_bg s (if rootness = 0 then gBgBLUE else gBgDEFAULT))
    (getinfoCore fields store tree ancestor pid)

/-- Embedding of `section_with_persons` (gtree.py lines 323-331) as used
by `GSPerson.profile`: the produced person list may contain `None`
entries (the result of failed lookups); `add_person` on `None` crashes,
modelled as `none`.  An empty list yields the empty string with no
header. -/
def section_with_persons (name : String)
    (persons : List (Option GSPerson)) : Option String :=
  if persons.isEmpty then some ""
  else
    persons.foldlM
      (fun acc op => Option.map (fun p => acc ++ add_person p) op)
      (add_header name)

/-- Embedding of `GSPerson.profile` (gtree.py lines 714-763): the
blue-background name line; the ID field (Python tests the truthiness of
the INTEGER id, so id 0 renders no ID line); Birth, Death and Gender
fields; the flat extended fields; the Parents, Children, Siblings and
Spouses sections; then one section per array-of-persons extended field
whose entries are `GSPerson.by_id` applied to each space-separated
STRING token - an integer id never compares equal to a string, so every
entry is `None` and any such section crashes, modelled as `none`. -/
def profile (fields : List GSField) (store : List GSPerson)
    (self : GSPerson) : Option String := do
  let flat := gBgBLUE ++ get_name self ++ gRESET ++ "\n"
    ++ add_field "ID" (if self.id = 0 then "" else toString self.id)
      false true 28
    ++ add_field "Birth" self.birth_date false true 28
    ++ add_field "Death" self.death_date false true 28
    ++ add_field "Gender" (get_gender self.gender) false true 28
    ++ concatAll ((all_fields_for_person fields self).filterMap
        (fun f =>
          if f.array_persons then none
          else some (add_field f.display_name (f.extract self) false true 28)))
  let sParents ← section_with_persons "Parents"
    ((get_parents store self).map some)
  let sChildren ← section_with_persons "Children"
    ((get_children store self).map some)
  let sSiblings ← section_with_persons "Siblings"
    ((get_siblings store self).map some)
  let sSpouses ← section_with_persons "Spouses"
    ((get_spouses store self).map some)
  let sArrays ←
    ((all_fields_for_person fields self).filter
        (fun f => f.array_persons)).foldlM
      (fun acc f => do
        let sec ← section_with_persons f.display_name
          ((pySplit ' ' (f.extract self)).map
            (fun psnum => by_id store (PyVal.vstr psnum)))
        pure (acc ++ sec))
      ""
  pure (flat ++ sParents ++ sChildren ++ sSiblings ++ sSpouses ++ sArrays)

/-- Modelled from the spec: `parents(person)` resolving each id of
`person.parents` via lookup, in the order the ids appear, silently
skipping ids that fail to resolve.  Stated for comparison with the
implemented `get_parents`. -/
def resolveParentsInOrder (store : List GSPerson) (self : GSPerson) :
    List GSPerson :=
  self.parents.filterMap (fun i => by_id store (PyVal.vint i))

-- Concrete records used by counterexamples and witnesses.

/-- Example person: Jane Doe, id 1, no parents (spec section 8). -/
def pJane : GSPerson :=
  ⟨1, "", "Jane", "", "Doe", "", "", 2, [], []⟩

/-- Example person: John Doe, id 2, no parents (spec section 8). -/
def pJohn : GSPerson :=
  ⟨2, "", "John", "", "Doe", "", "", 1, [], []⟩

/-- Example person: Amy Doe, id 3, parents 1 and 2 (spec section 8). -/
def pAmy : GSPerson :=
  ⟨3, "", "Amy", "", "Doe", "", "", 2, [1, 2], []⟩

/-- Example store with John listed before Jane and before their child
Amy: store order 2, 1, 3. -/
def storeDoe : List GSPerson :=
  [pJohn, pJane, pAmy]

/-- Example person with parent lists [2, 3]. -/
def pOrder1 : GSPerson :=
  ⟨1, "", "Pat", "", "", "", "", 0, [2, 3], []⟩

/-- Example person with the same parent ids in the other order [3, 2]. -/
def pOrder2 : GSPerson :=
  ⟨4, "", "Sam", "", "", "", "", 0, [3, 2], []⟩

/-- Store holding the two order-swapped siblings. -/
def storeOrder : List GSPerson :=
  [pOrder1, pOrder2]

/-- Example person with id 0. -/
def pZero : GSPerson :=
  ⟨0, "", "Zed", "", "", "", "", 1, [], []⟩

/-- Example child whose only recorded parent is person 0. -/
def pZeroKid : GSPerson :=
  ⟨5, "", "Kid", "", "", "", "", 0, [0], []⟩

/-- Store demonstrating the id-0 spouse fallback hitting the parent
itself. -/
def storeZero : List GSPerson :=
  [pZero, pZeroKid]

/-- Example single parent, id 7. -/
def pSolo : GSPerson :=
  ⟨7, "", "Solo", "", "", "", "", 0, [], []⟩

/-- Example child recording only person 7 as parent. -/
def pSoloKid : GSPerson :=
  ⟨9, "", "Junior", "", "", "", "", 0, [7], []⟩

/-- Example unrelated person carrying id 0. -/
def pStray : GSPerson :=
  ⟨0, "", "Stray", "", "", "", "", 0, [], []⟩

/-- Store where a child has a single parent and an unrelated person has
id 0. -/
def storeSolo : List GSPerson :=
  [pSolo, pSoloKid, pStray]

/-- Extended-field descriptor declared as an array of persons shown in
the tree. -/
def fldGodparents : GSField :=
  ⟨"Godparents", "Godparents", true, true, "Field:Text"⟩

/-- Example person carrying a godparents field naming the unresolvable
id 99. -/
def pAnn : GSPerson :=
  ⟨1, "", "Ann", "", "Doe", "1970", "", 2, [], [("godparents", "99")]⟩

/-- Store for the unresolved person-list field scenario. -/
def storeAnn : List GSPerson :=
  [pAnn]

/-- Example styled string whose escape sequences are all well formed. -/
def exEscaped : String :=
  "\x1b[31mhi\x1b[0m"

-- Helper lemmas.

/-- Helper: a non-escape character contributes its visible width. -/
theorem actuallenAux_keep (c : Char) (cs : List Char) (hesc : ¬ c = '\x1b') :
    actuallenAux false (c :: cs) = visContrib c + actuallenAux false cs := by
  simp only [actuallenAux, visContrib, if_neg hesc]
  split_ifs <;> omega

/-- Helper: the visible length of a character list equals the visible
length of the list with the escape sequences removed, for every state of
the skipping flag. -/
theorem lenAux_stripEsc (cs : List Char) :
    ∀ b, actuallenAux b cs = actuallenAux false (stripEscAux b cs) := by
  induction cs with
  | nil => intro b; cases b <;> rfl
  | cons c cs ih =>
    intro b
    cases b with
    | true =>
      by_cases ha : pyIsAlpha c
      · simp only [actuallenAux, stripEscAux, if_pos ha]
        exact ih false
      · simp only [actuallenAux, stripEscAux, if_neg ha]
        exact ih true
    | false =>
      by_cases hesc : c = '\x1b'
      · subst hesc
        simp only [actuallenAux, stripEscAux, if_pos rfl]
        exact ih true
      · rw [actuallenAux_keep c cs hesc]
        have hs : stripEscAux false (c :: cs) = c :: stripEscAux false cs := by
          simp [stripEscAux, hesc]
        rw [hs, actuallenAux_keep c _ hesc, ih false]

/-- Helper: the enumerated-children loop of the tree walk, written as a
join over the index-decorated child list. -/
theorem printKids_eq (g : Glyphs) (cs : List PTree) :
    ∀ (i n : Nat) (header : String),
      printKids g cs i n header =
        concatAll ((List.enumFrom i cs).map
          (fun ic => printNode g ic.2 (ic.1 == n - 1) header)) := by
  induction cs with
  | nil => intro i n header; rfl
  | cons c cs ih =>
    intro i n header
    simp only [printKids, List.enumFrom, List.map_cons]
    rw [ih (i + 1) n header]
    rfl

/-- Helper: looking up an integer-keyed entry list with a `GSPerson`
object as key never finds anything. -/
theorem find_vperson_none (l : List (Int × Option PyDict)) (p : GSPerson) :
    l.find? (fun kv => pyIntEq kv.1 (PyVal.vperson p)) = none := by
  induction l with
  | nil => rfl
  | cons kv t ih => simp [List.find?_cons, pyIntEq, ih]

/-- Helper: in ancestor mode the spouse-line guard of `getinfo` is never
satisfied, because the tree dictionary is keyed by integer ids and the
lookup key is the person object. -/
theorem spouseCond_ancestor (t : PyDict) (p : GSPerson) :
    spouseCond t true p = false := by
  cases t with
  | mk entries =>
    simp [spouseCond, treeGetPersonTruthy, PyDict.entries, find_vperson_none]

/-- Helper: a successful integer-keyed `by_id` lookup returns a person
carrying the looked-up id. -/
theorem by_id_vint_id {store : List GSPerson} {t : Int} {p : GSPerson}
    (h : by_id store (PyVal.vint t) = some p) : p.id = t := by
  have h2 : store.find? (fun person => pyIntEq person.id (PyVal.vint t))
      = some p := h
  have hp := List.find?_some h2
  simpa [pyIntEq] using hp

/-- Helper: the inner fold of the spouse derivation never returns the
scanning id if the accumulator differs from it. -/
theorem otherParent_foldl_ne (sid : Int) :
    ∀ (ps : List Int) (acc : Int), acc ≠ sid →
      ps.foldl (fun a tid => if tid ≠ sid then tid else a) acc ≠ sid := by
  intro ps
  induction ps with
  | nil => intro acc h; exact h
  | cons t ts ih =>
    intro acc h
    simp only [List.foldl_cons]
    by_cases ht : t ≠ sid
    · rw [if_pos ht]; exact ih t ht
    · rw [if_neg ht]; exact ih acc h

/-- Helper: for a person with nonzero id the derived other-parent id
never equals the id itself. -/
theorem otherParent_ne_self {sid : Int} (h : sid ≠ 0) (ps : List Int) :
    otherParent sid ps ≠ sid :=
  otherParent_foldl_ne sid ps 0 (fun hc => h hc.symm)

/-- Helper: one spouse-derivation step keeps existing members. -/
theorem mem_spouseStep_mono {store : List GSPerson} {A x : GSPerson}
    {acc : List GSPerson} (h : x ∈ acc) (child : GSPerson) :
    x ∈ spouseStep store A acc child := by
  unfold spouseStep
  cases by_id store (PyVal.vint (otherParent A.id child.parents)) with
  | none => exact h
  | some sp =>
    dsimp only
    by_cases hm : sp ∈ acc
    · rw [if_pos hm]; exact h
    · rw [if_neg hm]; exact List.mem_append_left _ h

/-- Helper: one spouse-derivation step never introduces the person
themselves, given a nonzero id. -/
theorem self_not_mem_spouseStep {store : List GSPerson} {A : GSPerson}
    (h0 : A.id ≠ 0) {acc : List GSPerson} (hA : A ∉ acc)
    (child : GSPerson) : A ∉ spouseStep store A acc child := by
  unfold spouseStep
  cases h : by_id store (PyVal.vint (otherParent A.id child.parents)) with
  | none => exact hA
  | some sp =>
    have hid : sp.id = otherParent A.id child.parents := by_id_vint_id h
    have hne : sp ≠ A := by
      intro he
      apply otherParent_ne_self h0 child.parents
      rw [← hid, he]
    dsimp only
    by_cases hm : sp ∈ acc
    · rw [if_pos hm]; exact hA
    · rw [if_neg hm]
      intro hmem
      rcases List.mem_append.mp hmem with h1 | h1
      · exact hA h1
      · exact hne (List.mem_singleton.mp h1).symm

/-- Helper: the spouse fold never introduces the person themselves,
given a nonzero id. -/
theorem self_not_mem_foldl_spouseStep {store : List GSPerson}
    {A : GSPerson} (h0 : A.id ≠ 0) :
    ∀ (l acc : List GSPerson), A ∉ acc →
      A ∉ l.foldl (spouseStep store A) acc := by
  intro l
  induction l with
  | nil => intro acc h; exact h
  | cons c cs ih =>
    intro acc h
    simp only [List.foldl_cons]
    exact ih _ (self_not_mem_spouseStep h0 h c)

/-- Helper: one spouse-derivation step preserves freedom from
duplicates. -/
theorem nodup_spouseStep {store : List GSPerson} {A : GSPerson}
    {acc : List GSPerson} (h : acc.Nodup) (child : GSPerson) :
    (spouseStep store A acc child).Nodup := by
  unfold spouseStep
  cases by_id store (PyVal.vint (otherParent A.id child.parents)) with
  | none => exact h
  | some sp =>
    dsimp only
    by_cases hm : sp ∈ acc
    · rw [if_pos hm]; exact h
    · rw [if_neg hm]
      refine List.nodup_append.mpr ⟨h, List.nodup_singleton sp, ?_⟩
      intro x hx hxs
      rw [List.mem_singleton.mp hxs] at hx
      exact hm hx

/-- Helper: the spouse fold preserves freedom from duplicates. -/
theorem nodup_foldl_spouseStep {store : List GSPerson} {A : GSPerson} :
    ∀ (l acc : List GSPerson), acc.Nodup →
      (l.foldl (spouseStep store A) acc).Nodup := by
  intro l
  induction l with
  | nil => intro acc h; exact h
  | cons c cs ih =>
    intro acc h
    simp only [List.foldl_cons]
    exact ih _ (nodup_spouseStep h c)

/-- Helper: members of the accumulator survive the whole spouse fold. -/
theorem mem_foldl_spouseStep {store : List GSPerson} {A x : GSPerson} :
    ∀ (l acc : List GSPerson), x ∈ acc →
      x ∈ l.foldl (spouseStep store A) acc := by
  intro l
  induction l with
  | nil => intro acc h; exact h
  | cons c cs ih =>
    intro acc h
    simp only [List.foldl_cons]
    exact ih _ (mem_spouseStep_mono h c)

/-- Helper: a parent-id list all of whose entries equal the scanning id
leaves the other-parent accumulator untouched. -/
theorem otherParent_all_self {sid : Int} :
    ∀ (ps : List Int) (acc : Int), (∀ t ∈ ps, t = sid) →
      ps.foldl (fun a tid => if tid ≠ sid then tid else a) acc = acc := by
  intro ps
  induction ps with
  | nil => intro acc _; rfl
  | cons t ts ih =>
    intro acc h
    have ht : t = sid := h t (List.mem_cons_self t ts)
    simp only [List.foldl_cons, ht, ne_eq, not_true_eq_false, if_false]
    exact ih acc (fun u hu => h u (List.mem_cons_of_mem t hu))

-- Claim theorems.

/-- Claim C1: rendering a person-list extended field with an unresolved
id is claimed to silently omit the entry and never crash; evaluating the
embedded code on such a store shows both the profile view and the tree
info block crash instead (modelled as `none`). -/
theorem c1_unresolved_personlist_crash :
    profile [fldGodparents] storeAnn pAnn = none
    ∧ getinfoCore [fldGodparents] storeAnn (PyDict.mk []) true 1 = none := by
  constructor <;> rfl

/-- Claim C2 counterexample: two stored persons with the same parent ids
in different order are not reported as siblings, refuting the claimed
unordered-set comparison. -/
theorem c2_order_counterexample :
    pOrder2 ∈ storeOrder ∧ pOrder2.id ≠ pOrder1.id
    ∧ List.Perm pOrder1.parents pOrder2.parents
    ∧ pOrder1.parents ≠ []
    ∧ pOrder2 ∉ get_siblings storeOrder pOrder1 := by
  refine ⟨by decide, by decide, ?_, by decide, by decide⟩
  exact List.Perm.swap 3 2 []

/-- Claim C2 amended: membership in `get_siblings` holds exactly for
stored persons with a different id whose parent list equals the other
parent list as an ORDERED list, the list being non-empty. -/
theorem c2_siblings_iff (store : List GSPerson) (A B : GSPerson) :
    B ∈ get_siblings store A ↔
      (B ∈ store ∧ B.id ≠ A.id ∧ B.parents = A.parents
        ∧ A.parents ≠ []) := by
  unfold get_siblings
  by_cases hp : A.parents.isEmpty
  · rw [if_pos hp]
    have hnil : A.parents = [] := by
      cases hcase : A.parents with
      | nil => rfl
      | cons x xs => rw [hcase] at hp; exact absurd hp (by simp)
    simp [hnil]
  · rw [if_neg hp]
    have hne : A.parents ≠ [] := by
      intro hc
      apply hp
      rw [hc]
      rfl
    simp only [List.mem_filter, Bool.and_eq_true, decide_eq_true_eq]
    constructor
    · rintro ⟨hB, hid, hpar⟩
      exact ⟨hB, hid, hpar, hne⟩
    · rintro ⟨hB, hid, hpar, _⟩
      exact ⟨hB, hid, hpar⟩

/-- Claim C3: the claim states a horizontal tab counts as 8 columns; the
code tests printability first, a tab is not printable in Python, and so
the tab branch is dead: a tab counts 0.  The remaining clauses (zero
width for carriage return, newline, form feed, vertical tab; width 1
for ordinary printable characters) do hold. -/
theorem c3_tab_width_eval :
    actuallenStr "\t" = 0 ∧ actuallenStr "a\tb" = 2
    ∧ actuallenStr "\r\n\x0c\x0b" = 0 := by decide

/-- Claim C4: the spouse-line guard of the info block is never satisfied
in ancestor mode (the root dictionary is keyed by integer ids while the
lookup key is the person object), so no ancestor-mode node - the root
included - ever shows spouse lines, and the ancestor-mode info block
does not depend on the tree dictionary at all; in descendant mode the
guard always holds, so every node shows its spouse lines. -/
theorem c4_ancestor_spouse_lines :
    (∀ (t : PyDict) (p : GSPerson), spouseCond t true p = false)
    ∧ (∀ (t : PyDict) (p : GSPerson), spouseCond t false p = true)
    ∧ (∀ (F : List GSField) (S : List GSPerson) (t1 t2 : PyDict)
        (pid : Int),
        getinfoCore F S t1 true pid = getinfoCore F S t2 true pid) := by
  refine ⟨spouseCond_ancestor, fun t p => rfl, ?_⟩
  intro F S t1 t2 pid
  unfold getinfoCore
  cases h : by_id S (PyVal.vint pid) with
  | none => rfl
  | some person => simp [spouseCond_ancestor]

/-- Claim C5 counterexample: with the store listing John before Jane,
the parents of Amy (parent ids [1, 2]) come back in store order
[John, Jane], not in the id order [Jane, John] the claim states. -/
theorem c5_order_counterexample :
    get_parents storeDoe pAmy = [pJohn, pJane]
    ∧ resolveParentsInOrder storeDoe pAmy = [pJane, pJohn]
    ∧ pJohn ≠ pJane := by decide

/-- Claim C5 amended: `get_parents` returns exactly the stored persons
whose id occurs in the parent list - unresolvable ids silently
contribute nothing - but ordered as a sublist of the STORE, not in
parent-list order. -/
theorem c5_parents_store_order (store : List GSPerson) (self : GSPerson) :
    (∀ p, p ∈ get_parents store self ↔ (p ∈ store ∧ p.id ∈ self.parents))
    ∧ List.Sublist (get_parents store self) store := by
  constructor
  · intro p
    simp [get_parents, List.mem_filter]
  · exact List.filter_sublist store

/-- Claim C6: for a string whose escape sequences are all well formed,
the visible length equals the visible length of the string with every
escape sequence deleted. -/
theorem c6_strip_invariance (s : String) (_h : wellFormedEscapes s) :
    actuallenStr s = actuallenStr (stripEscapesStr s) := by
  show actuallenAux false s.data
      = actuallenAux false (stripEscAux false s.data)
  exact lenAux_stripEsc s.data false

/-- Claim C6 witness at a concrete styled string. -/
theorem c6_strip_invariance_witness :
    wellFormedEscapes exEscaped
    ∧ actuallenStr exEscaped = actuallenStr (stripEscapesStr exEscaped) :=
  ⟨by decide, c6_strip_invariance exEscaped (by decide)⟩

/-- Claim C7 counterexample: a person with id 0 whose child records no
other parent becomes their own spouse, because the other-parent
accumulator defaults to 0 and resolves to the person themselves. -/
theorem c7_self_spouse_counterexample :
    pZero ∈ storeZero ∧ pZero ∈ get_spouses storeZero pZero := by decide

/-- Claim C7 amended: for every person whose id is not 0 the spouse
list never contains the person themselves, and the spouse list is
always free of duplicates. -/
theorem c7_spouses_no_self (store : List GSPerson) (A : GSPerson)
    (h : A.id ≠ 0) :
    A ∉ get_spouses store A ∧ (get_spouses store A).Nodup :=
  ⟨self_not_mem_foldl_spouseStep h (get_children store A) []
      (List.not_mem_nil A),
    nodup_foldl_spouseStep (get_children store A) [] List.nodup_nil⟩

/-- Claim C7 witness at the Doe family store. -/
theorem c7_spouses_no_self_witness :
    pJane.id ≠ 0
    ∧ (pJane ∉ get_spouses storeDoe pJane
        ∧ (get_spouses storeDoe pJane).Nodup) :=
  ⟨by decide, c7_spouses_no_self storeDoe pJane (by decide)⟩

/-- Claim C8: the tree walk emits, for every node, the prefix, the elbow
connector when last and the tee connector otherwise, the info block
with internal newlines continued under a pipe (not last) or blank
padding (last), and the children under the prefix extended by that same
segment, each child last exactly at the final position - for both glyph
configurations. -/
theorem c8_tree_walk :
    ∀ (ascii : Bool) (info : String) (children : List PTree)
      (last : Bool) (header : String),
      printNode (theOPTIONS ascii) (PTree.node info children) last header =
        header
        ++ (if last then (theOPTIONS ascii).ELBOW else (theOPTIONS ascii).TEE)
        ++ newlinesRepl info
            (header ++ (if last then (theOPTIONS ascii).BLANK
              else (theOPTIONS ascii).PIPE))
        ++ "\n"
        ++ concatAll ((children.enum).map
            (fun ic => printNode (theOPTIONS ascii) ic.2
              (ic.1 == children.length - 1)
              (header ++ (if last then (theOPTIONS ascii).BLANK
                else (theOPTIONS ascii).PIPE)))) := by
  intro ascii info children last header
  simp only [printNode]
  cases children with
  | nil => rfl
  | cons c cs =>
    simp only [List.isEmpty_cons, if_false]
    rw [printKids_eq]
    rfl

/-- Claim C9: the info block at rootness 0 is the core block wrapped by
`colorise_bg` with the blue highlight background, at any nonzero
rootness the same core block wrapped with the default background, and
the two background codes differ. -/
theorem c9_root_highlight :
    ∀ (F : List GSField) (S : List GSPerson) (t : PyDict) (a : Bool)
      (pid : Int) (r : Nat), r ≠ 0 →
      getinfo F S t a pid 0 =
        Option.map (fun s => colorise_bg s gBgBLUE) (getinfoCore F S t a pid)
      ∧ getinfo F S t a pid r =
        Option.map (fun s => colorise_bg s gBgDEFAULT)
          (getinfoCore F S t a pid)
      ∧ gBgBLUE ≠ gBgDEFAULT := by
  intro F S t a pid r hr
  refine ⟨rfl, ?_, by decide⟩
  simp [getinfo, hr]

/-- Claim C9 witness at the Doe family store at rootness 1. -/
theorem c9_root_highlight_witness :
    (1 : Nat) ≠ 0
    ∧ (getinfo [] storeDoe (PyDict.mk []) true 1 0 =
        Option.map (fun s => colorise_bg s gBgBLUE)
          (getinfoCore [] storeDoe (PyDict.mk []) true 1)
      ∧ getinfo [] storeDoe (PyDict.mk []) true 1 1 =
        Option.map (fun s => colorise_bg s gBgDEFAULT)
          (getinfoCore [] storeDoe (PyDict.mk []) true 1)
      ∧ gBgBLUE ≠ gBgDEFAULT) :=
  ⟨by decide, c9_root_highlight [] storeDoe (PyDict.mk []) true 1 1 (by decide)⟩

/-- Claim C10: for a child recording no parent id other than the
person's own, the spouse derivation looks up id 0: when no stored
person has id 0 the step for that child leaves the spouse accumulator
unchanged, and when some stored person has id 0 that person appears in
the spouse list. -/
theorem c10_zero_fallback (store : List GSPerson) (self child : GSPerson)
    (h1 : child ∈ get_children store self)
    (h2 : ∀ t ∈ child.parents, t = self.id) :
    (by_id store (PyVal.vint 0) = none →
      ∀ acc, spouseStep store self acc child = acc)
    ∧ (∀ p0, by_id store (PyVal.vint 0) = some p0 →
        p0 ∈ get_spouses store self) := by
  have hop : otherParent self.id child.parents = 0 :=
    otherParent_all_self child.parents 0 h2
  constructor
  · intro hz acc
    unfold spouseStep
    rw [hop, hz]
  · intro p0 hz
    have hstep : ∀ acc, p0 ∈ spouseStep store self acc child := by
      intro acc
      unfold spouseStep
      rw [hop, hz]
      dsimp only
      by_cases hm : p0 ∈ acc
      · rw [if_pos hm]; exact hm
      · rw [if_neg hm]
        exact List.mem_append_right _ (List.mem_singleton_self p0)
    have hfold : ∀ (l acc : List GSPerson), child ∈ l →
        p0 ∈ l.foldl (spouseStep store self) acc := by
      intro l
      induction l with
      | nil => intro acc hmem; exact absurd hmem (List.not_mem_nil child)
      | cons c cs ih =>
        intro acc hmem
        simp only [List.foldl_cons]
        rcases List.mem_cons.mp hmem with hc | hc
        · rw [← hc]
          exact mem_foldl_spouseStep cs _ (hstep acc)
        · exact ih _ hc
    exact hfold (get_children store self) [] h1

/-- Claim C10 witness: Junior records only Solo (id 7) as parent, Stray
holds id 0, and Stray indeed appears among the spouses of Solo. -/
theorem c10_zero_fallback_witness :
    pStray ∈ get_spouses storeSolo pSolo :=
  (c10_zero_fallback storeSolo pSolo pSoloKid (by decide) (by decide)).2
    pStray (by decide)
